import Mathlib

/-!
# Verification of the DingTalk channel plugin (openclaw-dingtalk)

Shallow embedding of the message ingestion and dispatch core:
token cache (`getAccessToken`), message classifier and per-kind handlers,
richText parsing, the reply dispatcher, and the session monitor's
message callback (`handleMessage`) modelled as an explicit step trace.

JavaScript optional fields are modelled as `Option`; JS truthiness of
optional strings (absent or empty string is falsy) is `truthy`; the JS
nullish-coalescing operator `a ?? b` on optional strings is `jsOr`.
Network effects (token exchange, media download, webhook POST) are
modelled as explicit oracles passed in as arguments.
-/

namespace DingTalk

/-- JS truthiness of an optional string: `undefined` and `""` are falsy. -/
def truthy : Option String → Bool
  | none => false
  | some s => s ≠ ""

/-- JS nullish coalescing `a ?? b` on optional strings (only `undefined`
falls through to `b`; an empty string does not). -/
def jsOr : Option String → Option String → Option String
  | some s, _ => some s
  | none, b => b

/-- JS `String.prototype.trim`: strip whitespace from both ends
(executable over the character list; Lean's `Char.isWhitespace` covers
the ASCII whitespace the claims exercise). -/
def jsTrim (s : String) : String :=
  String.mk (((s.data.dropWhile Char.isWhitespace).reverse.dropWhile
    Char.isWhitespace).reverse)

/-- JS truthiness of an optional number: `undefined` and `0` are falsy. -/
def truthyNat : Option Nat → Bool
  | none => false
  | some n => n ≠ 0

/-! ## Data model (src/types.ts) -/

/-- One element of a richText message body.  In the source this is the
union `RichTextTextElement | RichTextPictureElement`; the runtime values
are duck-typed JS objects, so we model a single record of optional
fields (absent field = `none`). -/
structure RichTextElement where
  type : Option String := none
  text : Option String := none
  downloadCode : Option String := none
  pictureDownloadCode : Option String := none
  width : Option Nat := none
  height : Option Nat := none
  extension : Option String := none
deriving Repr, DecidableEq

/-- The `content` payload of a media message.  In the source this is the
union `PictureContent | AudioContent | VideoContent | FileContent |
RichTextContent`; handlers cast and read optional fields, so we model a
single duck-typed record of optional fields. -/
structure ContentObj where
  downloadCode : Option String := none
  pictureDownloadCode : Option String := none
  duration : Option Nat := none
  extension : Option String := none
  fileName : Option String := none
  fileSize : Option Nat := none
  richText : Option (List RichTextElement) := none
  width : Option Nat := none
  height : Option Nat := none
deriving Repr, DecidableEq

/-- Decoded inbound message (`DingTalkMessageData`).  `msgtype` and
`conversationType` are runtime strings; `text` models the optional
`text.content` field; fields the claims never touch are omitted. -/
structure DingTalkMessageData where
  conversationType : String := "1"
  msgtype : String := "text"
  msgId : String := ""
  createAt : String := "0"
  senderNick : String := ""
  senderStaffId : String := ""
  isInAtList : Bool := false
  sessionWebhook : Option String := none
  text : Option String := none
  content : Option ContentObj := none
deriving Repr, DecidableEq

/-- Media kinds (`MediaKind`). -/
inductive MediaKind where
  | picture
  | audio
  | video
  | file
deriving Repr, DecidableEq

/-- A downloaded-and-saved media item (`MediaItem`).  `duration` keeps the
source's seconds value (`content.duration / 1000`), with JS float division
modelled as `Nat` division (no claim depends on the quotient). -/
structure MediaItem where
  kind : MediaKind
  path : String
  contentType : String
  fileName : Option String := none
  fileSize : Option Nat := none
  duration : Option Nat := none
deriving Repr, DecidableEq

/-- Media context attached to an inbound message (`InboundMediaContext`). -/
structure InboundMediaContext where
  items : List MediaItem
  primary : Option MediaItem := none
deriving Repr, DecidableEq

/-- Result of `handler.validate`. -/
structure ValidationResult where
  valid : Bool
  errorMessage : Option String := none
deriving Repr, DecidableEq

/-- Result of `handler.handle` (`MessageHandleResult`); the optional JS
boolean `skipProcessing` is falsy when absent, so a plain `Bool`. -/
structure MessageHandleResult where
  success : Bool
  media : Option InboundMediaContext := none
  errorMessage : Option String := none
  skipProcessing : Bool := false
deriving Repr, DecidableEq

/-! ## Effects

`downloadAndSaveMedia` performs two network calls (`getFileDownloadUrl`,
`downloadFromUrl`) and a local save; its outcome per download code is
abstracted as an oracle `Downloader`, and its start is recorded in the
step trace (`Step.mediaFetch`) — that start is the first downstream
network call made on behalf of a message. -/

/-- Result of a successful `downloadAndSaveMedia` call. -/
structure SavedMedia where
  path : String
  contentType : String
  fileSize : Nat
deriving Repr, DecidableEq

/-- Oracle for `downloadAndSaveMedia`: maps a download code to either the
saved media or the thrown error message. -/
def Downloader : Type := String → Except String SavedMedia

/-- Observable steps of the session monitor's message callback, in
program order.  `recordInbound`/`recordError` are the
`recordChannelRuntimeState` writes, `ackSuccess`/`ackFailure` the
`client.socketCallBackResponse` calls, `mediaFetch` the start of a
`downloadAndSaveMedia` call (the first download network call),
`webhookPost` an error reply actually POSTed by `replyError`, and
`dispatch` the hand-off to `processMessageAsync`. -/
inductive Step where
  | recordInbound
  | recordError (msg : String)
  | ackSuccess
  | ackFailure
  | validateStep (msgtype : String)
  | handleStart (msgtype : String)
  | mediaFetch (code : String)
  | webhookPost (url : String) (msg : String)
  | dispatch
deriving Repr, DecidableEq

/-- `downloadAndSaveMedia`: emits the fetch step and consults the oracle. -/
def downloadAndSaveMedia (dl : Downloader) (code : String) :
    List Step × Except String SavedMedia :=
  ([Step.mediaFetch code], dl code)

/-! ## richText parsing (parseRichTextContent and helpers) -/

/-- `isRichTextPicture`: `element.type === "picture"`. -/
def isRichTextPicture (e : RichTextElement) : Bool :=
  e.type == some "picture"

/-- `getRichTextPictureDownloadCode`:
`element.downloadCode ?? element.pictureDownloadCode`. -/
def getRichTextPictureDownloadCode (e : RichTextElement) : Option String :=
  jsOr e.downloadCode e.pictureDownloadCode

/-- One extracted image info of `parseRichTextContent`. -/
structure ImageInfo where
  downloadCode : String
  width : Option Nat := none
  height : Option Nat := none
  extension : Option String := none
deriving Repr, DecidableEq

/-- Loop body of `parseRichTextContent` over `content.richText`:
picture elements with a truthy download code are appended to the image
list; other elements with truthy `text` are appended to the text list. -/
def parseRichTextStep (acc : List String × List ImageInfo) (e : RichTextElement) :
    List String × List ImageInfo :=
  if isRichTextPicture e then
    match getRichTextPictureDownloadCode e with
    | some dc =>
        if dc ≠ "" then
          (acc.1, acc.2 ++ [{ downloadCode := dc, width := e.width,
                              height := e.height, extension := e.extension }])
        else acc
    | none => acc
  else
    match e.text with
    | some t => if t ≠ "" then (acc.1 ++ [t], acc.2) else acc
    | none => acc

/-- `parseRichTextContent`: split a richText element list into its text
parts and its image infos, preserving order. -/
def parseRichTextContent (elements : List RichTextElement) :
    List String × List ImageInfo :=
  elements.foldl parseRichTextStep ([], [])

/-! ## Message handlers -/

/-- A message handler (`MessageHandler`).  `getPreview` is log-only and
not modelled; `handle` additionally takes the download oracle and emits
its steps.  The in-place write of richText combined text onto
`data.text` is a hand-off to the downstream context builder and is not
needed by any handler result, so it is not part of `handle`'s value. -/
structure MessageHandler where
  canHandle : DingTalkMessageData → Bool
  validate : DingTalkMessageData → ValidationResult
  handle : Downloader → DingTalkMessageData → List Step × MessageHandleResult

/-- `textMessageHandler`: empty (trimmed) text is silently ignored
(`valid: false` with no error message); `handle` is a no-op success. -/
def textMessageHandler : MessageHandler where
  canHandle data := data.msgtype == "text"
  validate data :=
    let text := jsTrim (data.text.getD "")
    if text = "" then { valid := false, errorMessage := none }
    else { valid := true }
  handle _ _ := ([], { success := true })

/-- Shared body of the picture/audio/video/file `handle` methods: one
`downloadAndSaveMedia` call, wrapped into a single-item media context on
success, or a kind-labelled error message on failure. -/
def singleMediaHandle (dl : Downloader) (code : String) (kind : MediaKind)
    (errLabel : String) (fileName : Option String) (duration : Option Nat) :
    List Step × MessageHandleResult :=
  let dsm := downloadAndSaveMedia dl code
  match dsm.2 with
  | .ok saved =>
      let item : MediaItem :=
        { kind := kind, path := saved.path, contentType := saved.contentType,
          fileName := fileName, fileSize := some saved.fileSize, duration := duration }
      (dsm.1, { success := true, media := some { items := [item], primary := some item } })
  | .error e =>
      (dsm.1, { success := false, errorMessage := some (errLabel ++ e) })

/-- `pictureMessageHandler`: the download code is
`content?.downloadCode ?? content?.pictureDownloadCode`; a falsy result
fails validation with a user-visible message. -/
def pictureMessageHandler : MessageHandler where
  canHandle data := data.msgtype == "picture"
  validate data :=
    let dc := jsOr (data.content.bind (fun c => c.downloadCode))
                   (data.content.bind (fun c => c.pictureDownloadCode))
    if truthy dc then { valid := true }
    else { valid := false, errorMessage := some "图片处理失败：缺少下载码" }
  handle dl data :=
    let dc := (jsOr (data.content.bind (fun c => c.downloadCode))
                    (data.content.bind (fun c => c.pictureDownloadCode))).getD ""
    singleMediaHandle dl dc .picture "图片处理失败：" none none

/-- `audioMessageHandler`: requires `content?.downloadCode`; on success the
item carries `duration / 1000` seconds when the raw duration is truthy. -/
def audioMessageHandler : MessageHandler where
  canHandle data := data.msgtype == "audio"
  validate data :=
    if truthy (data.content.bind (fun c => c.downloadCode)) then { valid := true }
    else { valid := false, errorMessage := some "语音处理失败：缺少下载码" }
  handle dl data :=
    let content := data.content.getD {}
    let dur := if truthyNat content.duration
               then some ((content.duration.getD 0) / 1000) else none
    singleMediaHandle dl (content.downloadCode.getD "") .audio "语音处理失败：" none dur

/-- `videoMessageHandler`: same shape as the audio handler. -/
def videoMessageHandler : MessageHandler where
  canHandle data := data.msgtype == "video"
  validate data :=
    if truthy (data.content.bind (fun c => c.downloadCode)) then { valid := true }
    else { valid := false, errorMessage := some "视频处理失败：缺少下载码" }
  handle dl data :=
    let content := data.content.getD {}
    let dur := if truthyNat content.duration
               then some ((content.duration.getD 0) / 1000) else none
    singleMediaHandle dl (content.downloadCode.getD "") .video "视频处理失败：" none dur

/-- `fileMessageHandler`: requires `content?.downloadCode`; the saved item
keeps the original file name. -/
def fileMessageHandler : MessageHandler where
  canHandle data := data.msgtype == "file"
  validate data :=
    if truthy (data.content.bind (fun c => c.downloadCode)) then { valid := true }
    else { valid := false, errorMessage := some "文件处理失败：缺少下载码" }
  handle dl data :=
    let content := data.content.getD {}
    singleMediaHandle dl (content.downloadCode.getD "") .file "文件处理失败："
      content.fileName none

/-- Download loop of the richText handler: each image info is fetched in
order; the first failure aborts the loop (the thrown error escapes to the
handler's catch), discarding every already-built item. -/
def downloadAllImages (dl : Downloader) :
    List ImageInfo → List Step × Except String (List MediaItem)
  | [] => ([], .ok [])
  | info :: rest =>
      let dsm := downloadAndSaveMedia dl info.downloadCode
      match dsm.2 with
      | .error e => (dsm.1, .error e)
      | .ok saved =>
          let item : MediaItem :=
            { kind := .picture, path := saved.path, contentType := saved.contentType,
              fileSize := some saved.fileSize }
          let next := downloadAllImages dl rest
          (dsm.1 ++ next.1, next.2.map (fun items => item :: items))

/-- `richTextMessageHandler`: validation rejects a missing richText array
with a user-visible message and an empty parse (no text, no images)
silently; `handle` downloads every image in element order and turns any
failure into a single aggregate error with no media. -/
def richTextMessageHandler : MessageHandler where
  canHandle data := data.msgtype == "richText"
  validate data :=
    match data.content.bind (fun c => c.richText) with
    | none => { valid := false, errorMessage := some "富文本消息格式错误" }
    | some elements =>
        let parsed := parseRichTextContent elements
        if parsed.1 = [] ∧ parsed.2 = [] then { valid := false, errorMessage := none }
        else { valid := true }
  handle dl data :=
    let elements := (data.content.bind (fun c => c.richText)).getD []
    let parsed := parseRichTextContent elements
    let dla := downloadAllImages dl parsed.2
    match dla.2 with
    | .error e =>
        (dla.1, { success := false, errorMessage := some ("富文本消息处理失败：" ++ e) })
    | .ok items =>
        let media : Option InboundMediaContext :=
          if items.isEmpty then none
          else some { items := items, primary := items.head? }
        (dla.1, { success := true, media := media })

/-- `unsupportedMessageHandler`: unconditional catch-all; always invalid
with a fixed user-visible message; `handle` signals `skipProcessing`. -/
def unsupportedMessageHandler : MessageHandler where
  canHandle _ := true
  validate _ :=
    { valid := false,
      errorMessage := some "暂不支持该类型消息，请发送文本、图片、语音、视频、文件或图文混排消息。" }
  handle _ _ := ([], { success := false, skipProcessing := true })

/-- `messageHandlers`: the registered handler list, in priority order,
with the catch-all last. -/
def messageHandlers : List MessageHandler :=
  [textMessageHandler, pictureMessageHandler, audioMessageHandler,
   videoMessageHandler, fileMessageHandler, richTextMessageHandler,
   unsupportedMessageHandler]

/-- `getMessageHandler`: first handler whose `canHandle` accepts the
message.  The source uses a non-null assertion on `Array.find`; the
catch-all guarantees a match, so the default is unreachable. -/
def getMessageHandler (data : DingTalkMessageData) : MessageHandler :=
  (messageHandlers.find? (fun h => h.canHandle data)).getD unsupportedMessageHandler

/-- The kind-specific handler for each of the six supported `msgtype`
values (specification aid for stating classification results). -/
def kindHandler : String → Option MessageHandler
  | "text" => some textMessageHandler
  | "picture" => some pictureMessageHandler
  | "audio" => some audioMessageHandler
  | "video" => some videoMessageHandler
  | "file" => some fileMessageHandler
  | "richText" => some richTextMessageHandler
  | _ => none

/-- The saved media the oracle returns for a code (junk on failure;
used only under an all-downloads-succeed hypothesis). -/
def savedOrDefault (dl : Downloader) (code : String) : SavedMedia :=
  match dl code with
  | .ok s => s
  | .error _ => { path := "", contentType := "", fileSize := 0 }

/-- The media item the richText download loop builds for one image info
when its download succeeds. -/
def mediaItemOf (dl : Downloader) (info : ImageInfo) : MediaItem :=
  { kind := .picture,
    path := (savedOrDefault dl info.downloadCode).path,
    contentType := (savedOrDefault dl info.downloadCode).contentType,
    fileSize := some (savedOrDefault dl info.downloadCode).fileSize }

/-- Fallback image info for index-based access in statements. -/
def defaultImageInfo : ImageInfo := { downloadCode := "" }

/-! ## Session monitor message callback (handleMessage) -/

/-- `replyError`: posts the message to the webhook only when both the
webhook and the message are truthy (`if (!webhook || !message) return`);
otherwise it is a silent no-op. -/
def replyError (webhook msg : Option String) : List Step :=
  if truthy webhook ∧ truthy msg then
    [Step.webhookPost (webhook.getD "") (msg.getD "")]
  else []

/-- The non-group path of the message callback: classify, record
`lastInboundAt`, acknowledge SUCCESS, validate (error reply on failure),
then `handler.handle` with an error reply on failure or the
`processMessageAsync` hand-off unless `skipProcessing`. -/
def mainTrace (dl : Downloader) (data : DingTalkMessageData) : List Step :=
  let handler := getMessageHandler data
  let validation := handler.validate data
  let pre := [Step.recordInbound, Step.ackSuccess, Step.validateStep data.msgtype]
  if validation.valid = false then
    pre ++ replyError data.sessionWebhook validation.errorMessage
  else
    let handled := handler.handle dl data
    pre ++ Step.handleStart data.msgtype :: handled.1 ++
      (if handled.2.success = false then
         replyError data.sessionWebhook handled.2.errorMessage
       else if handled.2.skipProcessing then []
       else [Step.dispatch])

/-- `handleMessage` as a step trace.  The input is the outcome of
`JSON.parse(message.data)` (`.error` = parse threw, which records the
error and acknowledges FAILURE); a group-chat message (`conversationType
=== "2"`) is acknowledged SUCCESS and nothing else; every other message
takes `mainTrace`.  The trace lists the callback's observable effects in
program order. -/
def handleMessage (dl : Downloader) (parsed : Except String DingTalkMessageData) :
    List Step :=
  match parsed with
  | .error e => [Step.recordError e, Step.ackFailure]
  | .ok data =>
      if data.conversationType == "2" then
        [Step.ackSuccess]
      else
        mainTrace dl data

/-! ## Runtime state, reply dispatcher, monitor shutdown -/

/-- Per-account runtime-state record kept in the shared map. -/
structure ChannelRuntimeState where
  running : Bool := false
  lastStartAt : Option Int := none
  lastStopAt : Option Int := none
  lastError : Option String := none
  lastInboundAt : Option Int := none
  lastOutboundAt : Option Int := none
deriving Repr, DecidableEq

/-- Response of the webhook reply endpoint. -/
structure WebhookResponse where
  errcode : Int
  errmsg : Option String := none
deriving Repr, DecidableEq

/-- Oracle for `replyViaWebhook`: webhook URL and reply text to the
platform's response. -/
def WebhookApi : Type := String → String → WebhookResponse

/-- The reply dispatcher's `deliver` (from `createReplyDispatcher`).
Returns the updated runtime-state record, the JS outcome (`.error` = the
thrown `回复失败` error), and the list of webhook POSTs performed.  Note
that the `lastOutboundAt` write sits after the if/else, so it runs on
the no-webhook (logged-and-dropped) branch too; only the empty-text
early return and the thrown rejection skip it. -/
def deliver (api : WebhookApi) (data : DingTalkMessageData)
    (payloadText : Option String) (now : Int) (st : ChannelRuntimeState) :
    ChannelRuntimeState × Except String Unit × List (String × String) :=
  let replyText := payloadText.getD ""
  if replyText = "" then (st, .ok (), [])
  else if truthy data.sessionWebhook then
    let wh := data.sessionWebhook.getD ""
    let result := api wh replyText
    if result.errcode ≠ 0 then
      (st, .error ("回复失败: " ++ result.errmsg.getD "undefined"), [(wh, replyText)])
    else
      ({ st with lastOutboundAt := some now }, .ok (), [(wh, replyText)])
  else
    ({ st with lastOutboundAt := some now }, .ok (), [])

/-- Monitor shutdown state: the runtime-state record, how many times
`client.disconnect()` has been called, and whether the abort listener is
currently registered. -/
structure MonitorSim where
  state : ChannelRuntimeState
  disconnectCount : Nat
  abortListenerActive : Bool
deriving Repr, DecidableEq

/-- State right after `monitorDingTalkProvider` records the starting
state and (when an abort signal was given) registers `stopHandler`. -/
def monitorStart (t0 : Int) (hasAbortSignal : Bool) : MonitorSim :=
  { state := { running := true, lastStartAt := some t0 },
    disconnectCount := 0,
    abortListenerActive := hasAbortSignal }

/-- `stopHandler`: disconnects the client and marks the runtime state
stopped.  It has no already-stopped guard. -/
def stopHandler (now : Int) (m : MonitorSim) : MonitorSim :=
  { m with
    disconnectCount := m.disconnectCount + 1,
    state := { m.state with running := false, lastStopAt := some now } }

/-- The returned `stop` function: runs `stopHandler`, then removes the
abort listener. -/
def monitorStop (now : Int) (m : MonitorSim) : MonitorSim :=
  { stopHandler now m with abortListenerActive := false }

/-- Abort-signal firing: runs `stopHandler` only while the listener is
registered (an `AbortSignal` fires its listeners at most once, and
`addEventListener` deduplicates an identical listener). -/
def fireAbort (now : Int) (m : MonitorSim) : MonitorSim :=
  if m.abortListenerActive then stopHandler now m else m

/-! ## Token cache (src/client.ts getAccessToken) -/

/-- One entry of `tokenCacheMap` (`TokenCache` in the source). -/
structure TokenCacheEntry where
  token : String
  expireTime : Int
deriving Repr, DecidableEq

/-- The token cache, keyed by `clientId` (a JS `Map`). -/
def TokenCacheMap : Type := String → Option TokenCacheEntry

/-- Body of the OAuth exchange response (`response.body`): optional
`accessToken` and optional `expireIn` (seconds). -/
structure ExchangeResponse where
  accessToken : Option String := none
  expireIn : Option Int := none
deriving Repr, DecidableEq

/-- Outcome of `getAccessToken`: the (possibly updated) cache, the token
or the thrown error, and whether the network exchange was performed. -/
structure TokenFetchOutcome where
  cache : TokenCacheMap
  result : Except String String
  networkCalled : Bool

/-- Miss path of `getAccessToken`: perform the exchange; if the response
carries a truthy token, store it with `expireTime = now + (expireIn ??
7200) * 1000` and return it, else throw. -/
def exchangeAndStore (exchange : ExchangeResponse) (now : Int) (clientId : String)
    (cache : TokenCacheMap) : TokenFetchOutcome :=
  if truthy exchange.accessToken then
    let token := exchange.accessToken.getD ""
    let expireTime := now + (exchange.expireIn.getD 7200) * 1000
    { cache := fun k => if k = clientId then some ⟨token, expireTime⟩ else cache k,
      result := .ok token, networkCalled := true }
  else
    { cache := cache, result := .error "获取 access_token 失败: 返回结果为空",
      networkCalled := true }

/-- `getAccessToken`: return the cached token without any network call
while `now < cached.expireTime - 5 * 60 * 1000`; otherwise exchange and
store.  Times are epoch milliseconds as `Int` (JS number arithmetic on
`Date.now()` values). -/
def getAccessToken (exchange : ExchangeResponse) (now : Int) (clientId : String)
    (cache : TokenCacheMap) : TokenFetchOutcome :=
  match cache clientId with
  | some cached =>
      if now < cached.expireTime - 5 * 60 * 1000 then
        { cache := cache, result := .ok cached.token, networkCalled := false }
      else exchangeAndStore exchange now clientId cache
  | none => exchangeAndStore exchange now clientId cache

/-! ## Helper lemmas -/

theorem getMessageHandler_of_text (d : DingTalkMessageData) (h : d.msgtype = "text") :
    getMessageHandler d = textMessageHandler := by
  obtain ⟨ct, mt, mi, ca, sn, ss, ia, sw, tx, co⟩ := d
  dsimp only at h
  subst h
  rfl

theorem getMessageHandler_of_picture (d : DingTalkMessageData) (h : d.msgtype = "picture") :
    getMessageHandler d = pictureMessageHandler := by
  obtain ⟨ct, mt, mi, ca, sn, ss, ia, sw, tx, co⟩ := d
  dsimp only at h
  subst h
  rfl

theorem handleMessage_group_trace (dl : Downloader) (d : DingTalkMessageData)
    (h : d.conversationType = "2") :
    handleMessage dl (.ok d) = [Step.ackSuccess] := by
  simp [handleMessage, h]

theorem handleMessage_not_group (dl : Downloader) (d : DingTalkMessageData)
    (h : d.conversationType ≠ "2") :
    handleMessage dl (.ok d) = mainTrace dl d := by
  simp [handleMessage, h]

theorem mainTrace_shape (dl : Downloader) (d : DingTalkMessageData) :
    ∃ rest, mainTrace dl d =
      Step.recordInbound :: Step.ackSuccess :: Step.validateStep d.msgtype :: rest := by
  simp only [mainTrace]
  split
  · exact ⟨_, rfl⟩
  · exact ⟨_, rfl⟩

/-- Boolean success test for a download outcome. -/
def exceptIsOk : Except String SavedMedia → Bool
  | .ok _ => true
  | .error _ => false

theorem exists_ok_of_exceptIsOk {dl : Downloader} {code : String}
    (h : exceptIsOk (dl code) = true) : ∃ s, dl code = .ok s := by
  cases hdc : dl code with
  | ok s => exact ⟨s, rfl⟩
  | error e => rw [hdc] at h; simp [exceptIsOk] at h

theorem downloadAllImages_error_at (dl : Downloader) (infos : List ImageInfo)
    (k : Nat) (e : String) (hk : k < infos.length)
    (hpre : ∀ j, j < k → exceptIsOk (dl ((infos.getD j defaultImageInfo).downloadCode)) = true)
    (herr : dl ((infos.getD k defaultImageInfo).downloadCode) = .error e) :
    (downloadAllImages dl infos).2 = .error e := by
  induction infos generalizing k with
  | nil => simp at hk
  | cons info rest ih =>
      cases k with
      | zero =>
          simp only [List.getD_cons_zero] at herr
          simp [downloadAllImages, downloadAndSaveMedia, herr]
      | succ k =>
          have h0 : exceptIsOk (dl info.downloadCode) = true := by
            simpa using hpre 0 (Nat.succ_pos k)
          obtain ⟨s, hs⟩ := exists_ok_of_exceptIsOk h0
          simp only [downloadAllImages, downloadAndSaveMedia, hs]
          have hrec := ih k (by simpa using hk)
            (fun j hj => by simpa using hpre (j + 1) (by omega))
            (by simpa using herr)
          rw [hrec]
          rfl

theorem downloadAllImages_all_ok (dl : Downloader) (infos : List ImageInfo)
    (h : ∀ info ∈ infos, exceptIsOk (dl info.downloadCode) = true) :
    (downloadAllImages dl infos).2 = .ok (infos.map (mediaItemOf dl)) := by
  induction infos with
  | nil => simp [downloadAllImages]
  | cons info rest ih =>
      obtain ⟨s, hs⟩ := exists_ok_of_exceptIsOk (h info (by simp))
      simp only [downloadAllImages, downloadAndSaveMedia, hs]
      rw [ih (fun i hi => h i (by simp [hi]))]
      simp [Except.map, mediaItemOf, savedOrDefault, hs]

/-! ## Concrete fixtures for witnesses and counterexamples -/

/-- A downloader for which every code succeeds with a fixed saved file. -/
def dlOk : Downloader :=
  fun _ => .ok { path := "/tmp/f", contentType := "image/png", fileSize := 3 }

/-- A downloader that fails exactly on code "c2". -/
def dlFailC2 : Downloader := fun code =>
  if code = "c2" then .error "boom"
  else .ok { path := "/p", contentType := "image/png", fileSize := 1 }

/-- A direct-chat picture message with a download code and a webhook. -/
def picMsg : DingTalkMessageData :=
  { msgtype := "picture", sessionWebhook := some "https://x",
    content := some { downloadCode := some "abc" } }

/-- A well-formed direct-chat text message. -/
def textMsg0 : DingTalkMessageData := { msgtype := "text", text := some "hello" }

/-- A text message with no session webhook. -/
def noWebhookMsg : DingTalkMessageData := { msgtype := "text", sessionWebhook := none }

/-- A text message whose content trims to the empty string. -/
def emptyTextMsg : DingTalkMessageData :=
  { msgtype := "text", text := some "   ", sessionWebhook := some "https://x" }

/-- A picture message with no download code in its content. -/
def noCodePicMsg : DingTalkMessageData :=
  { msgtype := "picture", sessionWebhook := some "https://x", content := some {} }

/-- A webhook endpoint that accepts every reply. -/
def okApi : WebhookApi := fun _ _ => { errcode := 0 }

/-- A webhook endpoint that rejects every reply. -/
def rejectApi : WebhookApi := fun _ _ => { errcode := 1, errmsg := some "bad" }

/-- A token cache holding a fresh token for identity "app1". -/
def cacheWarm : TokenCacheMap :=
  fun k => if k = "app1" then some { token := "tok1", expireTime := 1000000 } else none

/-- richText elements: one text part and two pictures. -/
def richElems : List RichTextElement :=
  [{ type := some "text", text := some "hello" },
   { type := some "picture", downloadCode := some "c1" },
   { type := some "picture", downloadCode := some "c2" }]

/-- A richText message over `richElems`. -/
def richMsg : DingTalkMessageData :=
  { msgtype := "richText", content := some { richText := some richElems } }

/-! ## Claims -/

/-- C1: in every trace of the session monitor's message callback, the
SUCCESS acknowledgement (`socketCallBackResponse`) strictly precedes
every media-fetch step (the `getFileDownloadUrl`/`downloadFromUrl` work
started by `handler.handle`), regardless of the handler's outcome. -/
theorem ack_before_media_fetch (dl : Downloader)
    (parsed : Except String DingTalkMessageData) (i : Nat) (c : String)
    (h : (handleMessage dl parsed)[i]? = some (Step.mediaFetch c)) :
    ∃ j, j < i ∧ (handleMessage dl parsed)[j]? = some Step.ackSuccess := by
  cases parsed with
  | error e =>
      exfalso
      rcases i with _ | _ | i <;> simp [handleMessage] at h
  | ok data =>
      by_cases hg : data.conversationType = "2"
      · exfalso
        rw [handleMessage_group_trace dl data hg] at h
        rcases i with _ | i <;> simp at h
      · rw [handleMessage_not_group dl data hg] at h ⊢
        obtain ⟨rest, hrest⟩ := mainTrace_shape dl data
        rw [hrest] at h ⊢
        rcases i with _ | _ | i
        · simp at h
        · simp at h
        · exact ⟨1, by omega, rfl⟩

theorem ack_before_media_fetch_witness :
    ∃ j, j < 4 ∧ (handleMessage dlOk (.ok picMsg))[j]? = some Step.ackSuccess :=
  ack_before_media_fetch dlOk (.ok picMsg) 4 "abc" (by decide)

/-- C2 counterexample: for the well-formed text message `textMsg0`, two
handlers of the registered list match (the text handler and the
unconditional catch-all), so "exactly one handler matches" is false at
this input. -/
theorem two_handlers_match_text_message :
    textMsg0.msgtype = "text" ∧
    (messageHandlers.filter (fun h => h.canHandle textMsg0)).length = 2 ∧
    ¬ (messageHandlers.filter (fun h => h.canHandle textMsg0)).length = 1 := by
  refine ⟨rfl, by decide, by decide⟩

/-- C2 amended: for each of the six supported kinds, classification
returns the kind-specific handler, whose `canHandle` accepts the
message; exactly one of the six kind-specific handlers (the registry
without its final catch-all) matches, while in the full registered list
exactly two match (the kind-specific handler plus the unconditional
catch-all). -/
theorem getMessageHandler_six_kinds (data : DingTalkMessageData)
    (hk : data.msgtype = "text" ∨ data.msgtype = "picture" ∨ data.msgtype = "audio" ∨
          data.msgtype = "video" ∨ data.msgtype = "file" ∨ data.msgtype = "richText") :
    getMessageHandler data = (kindHandler data.msgtype).getD unsupportedMessageHandler ∧
    (getMessageHandler data).canHandle data = true ∧
    (messageHandlers.filter (fun h => h.canHandle data)).length = 2 ∧
    ((messageHandlers.dropLast).filter (fun h => h.canHandle data)).length = 1 := by
  obtain ⟨ct, mt, mi, ca, sn, ss, ia, sw, tx, co⟩ := data
  dsimp only at hk
  rcases hk with rfl | rfl | rfl | rfl | rfl | rfl
  all_goals exact ⟨rfl, rfl, rfl, rfl⟩

theorem getMessageHandler_six_kinds_witness :
    getMessageHandler textMsg0 = (kindHandler textMsg0.msgtype).getD unsupportedMessageHandler ∧
    (getMessageHandler textMsg0).canHandle textMsg0 = true ∧
    (messageHandlers.filter (fun h => h.canHandle textMsg0)).length = 2 ∧
    ((messageHandlers.dropLast).filter (fun h => h.canHandle textMsg0)).length = 1 :=
  getMessageHandler_six_kinds textMsg0 (Or.inl rfl)

/-- C3 counterexample: from the started state, calling the returned stop
function twice does not give exactly one disconnect call (it gives two),
so the claimed conjunction fails at this input. -/
theorem monitorStop_twice_not_single_disconnect :
    ¬ ((monitorStop 2 (monitorStop 1 (monitorStart 0 true))).disconnectCount = 1 ∧
       (monitorStop 2 (monitorStop 1 (monitorStart 0 true))).state.running = false) := by
  decide

/-- C3 amended: calling the Monitor's stop path twice runs the unguarded
`stopHandler` once per call, so exactly two `disconnect()` calls are
made, and the runtime-state record has `running = false` after both
calls (already after the first). -/
theorem monitorStop_twice_disconnects (t0 t1 t2 : Int) (hasAbort : Bool) :
    (monitorStop t2 (monitorStop t1 (monitorStart t0 hasAbort))).disconnectCount = 2 ∧
    (monitorStop t2 (monitorStop t1 (monitorStart t0 hasAbort))).state.running = false ∧
    (monitorStop t1 (monitorStart t0 hasAbort)).state.running = false :=
  ⟨rfl, rfl, rfl⟩

/-- What is idempotent in the shutdown path: `stop` removes the abort
listener, so an abort firing after `stop` does not run `stopHandler`
again. -/
theorem fireAbort_after_stop (t0 t1 t2 : Int) :
    fireAbort t2 (monitorStop t1 (monitorStart t0 true)) =
      monitorStop t1 (monitorStart t0 true) := by
  simp [fireAbort, monitorStop, stopHandler, monitorStart]

/-- C4 counterexample: delivering the non-empty reply "hi" for a message
with no reply address is dropped (no POST, no throw) yet still updates
`lastOutboundAt` from `none` to the current time, so "updated on success
only" is false at this input. -/
theorem deliver_dropped_updates_lastOutboundAt :
    (deliver okApi noWebhookMsg (some "hi") 5 {}).2.2 = [] ∧
    (deliver okApi noWebhookMsg (some "hi") 5 {}).2.1 = .ok () ∧
    ({} : ChannelRuntimeState).lastOutboundAt = none ∧
    (deliver okApi noWebhookMsg (some "hi") 5 {}).1.lastOutboundAt = some 5 := by
  refine ⟨rfl, rfl, rfl, rfl⟩

/-- C4 amended: with a non-empty reply text, a missing reply address is
logged and dropped with no POST and no thrown error (no user-visible
escalation), but `lastOutboundAt` is updated on that dropped path just
as on success; only a rejected delivery (non-zero `errcode`, which
throws) leaves `lastOutboundAt` unchanged, as does an empty reply
text. -/
theorem deliver_lastOutboundAt_spec (api : WebhookApi) (data : DingTalkMessageData)
    (payloadText : Option String) (now : Int) (st : ChannelRuntimeState) :
    (payloadText.getD "" ≠ "" → truthy data.sessionWebhook = false →
      deliver api data payloadText now st =
        ({ st with lastOutboundAt := some now }, .ok (), [])) ∧
    (∀ wh, payloadText.getD "" ≠ "" → data.sessionWebhook = some wh → wh ≠ "" →
      (api wh (payloadText.getD "")).errcode ≠ 0 →
      (deliver api data payloadText now st).1 = st) ∧
    (∀ wh, payloadText.getD "" ≠ "" → data.sessionWebhook = some wh → wh ≠ "" →
      (api wh (payloadText.getD "")).errcode = 0 →
      (deliver api data payloadText now st).1 = { st with lastOutboundAt := some now }) ∧
    (payloadText.getD "" = "" → deliver api data payloadText now st = (st, .ok (), [])) := by
  refine ⟨?_, ?_, ?_, ?_⟩
  · intro hne hwh
    simp [deliver, hne, hwh]
  · intro wh hne hwh hwne herr
    simp [deliver, hne, hwh, truthy, hwne, herr]
  · intro wh hne hwh hwne hok
    simp [deliver, hne, hwh, truthy, hwne, hok]
  · intro he
    simp [deliver, he]

theorem deliver_lastOutboundAt_spec_witness :
    deliver okApi noWebhookMsg (some "hi") 5 {} =
      ({ lastOutboundAt := some 5 }, .ok (), []) ∧
    (deliver rejectApi { msgtype := "text", sessionWebhook := some "https://x" }
        (some "hi") 5 {}).1 = {} ∧
    (deliver okApi { msgtype := "text", sessionWebhook := some "https://x" }
        (some "hi") 5 {}).1 = { lastOutboundAt := some 5 } ∧
    deliver okApi noWebhookMsg (some "") 5 {} = ({}, .ok (), []) := by
  refine ⟨?_, ?_, ?_, ?_⟩
  · exact (deliver_lastOutboundAt_spec okApi noWebhookMsg (some "hi") 5 {}).1
      (by decide) (by decide)
  · exact (deliver_lastOutboundAt_spec rejectApi _ (some "hi") 5 {}).2.1 "https://x"
      (by decide) rfl (by decide) (by decide)
  · exact (deliver_lastOutboundAt_spec okApi _ (some "hi") 5 {}).2.2.1 "https://x"
      (by decide) rfl (by decide) (by decide)
  · exact (deliver_lastOutboundAt_spec okApi noWebhookMsg (some "") 5 {}).2.2.2 rfl

/-- C5: with a cached entry whose expiry lies more than five minutes in
the future, `getAccessToken` performs no network call and returns the
cached token with the cache unchanged; otherwise it performs the
exchange, and on a truthy token response stores the token keyed by the
identity with `expireTime = now + (expireIn ?? 7200) * 1000` and returns
it. -/
theorem getAccessToken_cache_spec (exchange : ExchangeResponse) (now : Int)
    (clientId : String) (cache : TokenCacheMap) :
    (∀ c, cache clientId = some c → c.expireTime - now > 5 * 60 * 1000 →
      getAccessToken exchange now clientId cache =
        { cache := cache, result := .ok c.token, networkCalled := false }) ∧
    ((∀ c, cache clientId = some c → c.expireTime - now ≤ 5 * 60 * 1000) →
      (getAccessToken exchange now clientId cache).networkCalled = true ∧
      ∀ tok, exchange.accessToken = some tok → tok ≠ "" →
        (getAccessToken exchange now clientId cache).result = .ok tok ∧
        (getAccessToken exchange now clientId cache).cache clientId =
          some { token := tok, expireTime := now + (exchange.expireIn.getD 7200) * 1000 }) := by
  constructor
  · intro c hc hfresh
    simp only [getAccessToken, hc]
    rw [if_pos (show now < c.expireTime - 5 * 60 * 1000 by omega)]
  · intro hstale
    have hout : getAccessToken exchange now clientId cache =
        exchangeAndStore exchange now clientId cache := by
      simp only [getAccessToken]
      cases hc : cache clientId with
      | none => rfl
      | some c =>
          dsimp only
          rw [if_neg]
          have := hstale c hc
          omega
    rw [hout]
    refine ⟨?_, ?_⟩
    · simp only [exchangeAndStore]
      split <;> rfl
    · intro tok htok hne
      simp only [exchangeAndStore, truthy, htok]
      simp [hne]

theorem getAccessToken_cache_spec_witness :
    getAccessToken { accessToken := some "tok2", expireIn := some 7200 } 0 "app1" cacheWarm =
      { cache := cacheWarm, result := .ok "tok1", networkCalled := false } ∧
    (getAccessToken { accessToken := some "tok2", expireIn := some 7200 } 0 "app1"
        (fun _ => none)).networkCalled = true ∧
    (getAccessToken { accessToken := some "tok2", expireIn := some 7200 } 0 "app1"
        (fun _ => none)).result = .ok "tok2" ∧
    (getAccessToken { accessToken := some "tok2", expireIn := some 7200 } 0 "app1"
        (fun _ => none)).cache "app1" = some { token := "tok2", expireTime := 7200000 } := by
  have h1 := (getAccessToken_cache_spec { accessToken := some "tok2", expireIn := some 7200 }
      0 "app1" cacheWarm).1 { token := "tok1", expireTime := 1000000 } (by decide) (by decide)
  have h2 := (getAccessToken_cache_spec { accessToken := some "tok2", expireIn := some 7200 }
      0 "app1" (fun _ => none)).2 (fun c hc => nomatch hc)
  exact ⟨h1, h2.1, (h2.2 "tok2" rfl (by decide)).1, (h2.2 "tok2" rfl (by decide)).2⟩

/-- C6: a text message whose trimmed content is empty fails validation
silently (`errorMessage` absent) and its callback trace performs no
error-reply POST; a picture message with no download code fails
validation with a non-empty error message, and its callback trace POSTs
exactly that message to the reply webhook when one is present. -/
theorem validate_silent_ignore_vs_user_error (dl : Downloader)
    (d1 d2 : DingTalkMessageData)
    (h1t : d1.msgtype = "text") (h1 : jsTrim (d1.text.getD "") = "")
    (h2t : d2.msgtype = "picture") (h2g : d2.conversationType ≠ "2")
    (h2a : d2.content.bind (fun c => c.downloadCode) = none)
    (h2b : d2.content.bind (fun c => c.pictureDownloadCode) = none) :
    textMessageHandler.validate d1 = { valid := false, errorMessage := none } ∧
    pictureMessageHandler.validate d2 =
      { valid := false, errorMessage := some "图片处理失败：缺少下载码" } ∧
    "图片处理失败：缺少下载码" ≠ "" ∧
    (∀ st ∈ handleMessage dl (.ok d1), ∀ u m, st ≠ Step.webhookPost u m) ∧
    (∀ wh, d2.sessionWebhook = some wh → wh ≠ "" →
      Step.webhookPost wh "图片处理失败：缺少下载码" ∈ handleMessage dl (.ok d2)) := by
  have hv1 : textMessageHandler.validate d1 = { valid := false, errorMessage := none } := by
    simp [textMessageHandler, h1]
  have hv2 : pictureMessageHandler.validate d2 =
      { valid := false, errorMessage := some "图片处理失败：缺少下载码" } := by
    simp [pictureMessageHandler, h2a, h2b, jsOr, truthy]
  refine ⟨hv1, hv2, by decide, ?_, ?_⟩
  · by_cases hg : d1.conversationType = "2"
    · rw [handleMessage_group_trace dl d1 hg]
      intro st hst u m
      simp at hst
      subst hst
      simp
    · rw [handleMessage_not_group dl d1 hg]
      have hmt : mainTrace dl d1 =
          [Step.recordInbound, Step.ackSuccess, Step.validateStep d1.msgtype] := by
        simp only [mainTrace, getMessageHandler_of_text d1 h1t, hv1]
        simp [replyError, truthy]
      rw [hmt]
      intro st hst u m
      simp at hst
      rcases hst with rfl | rfl | rfl <;> simp
  · intro wh hwh hwne
    rw [handleMessage_not_group dl d2 h2g]
    have hmt : mainTrace dl d2 =
        [Step.recordInbound, Step.ackSuccess, Step.validateStep d2.msgtype,
         Step.webhookPost wh "图片处理失败：缺少下载码"] := by
      simp only [mainTrace, getMessageHandler_of_picture d2 h2t, hv2]
      simp [replyError, truthy, hwh, hwne]
    rw [hmt]
    simp

theorem validate_silent_ignore_vs_user_error_witness :
    textMessageHandler.validate emptyTextMsg = { valid := false, errorMessage := none } ∧
    pictureMessageHandler.validate noCodePicMsg =
      { valid := false, errorMessage := some "图片处理失败：缺少下载码" } ∧
    (∀ st ∈ handleMessage dlOk (.ok emptyTextMsg), ∀ u m, st ≠ Step.webhookPost u m) ∧
    Step.webhookPost "https://x" "图片处理失败：缺少下载码" ∈
      handleMessage dlOk (.ok noCodePicMsg) := by
  have h := validate_silent_ignore_vs_user_error dlOk emptyTextMsg noCodePicMsg
    rfl (by decide) rfl (by decide) rfl rfl
  exact ⟨h.1, h.2.1, h.2.2.2.1, h.2.2.2.2 "https://x" rfl (by decide)⟩

/-- C7: if the k-th image download of a richText message fails while the
first k succeed, `handle` returns a single aggregate failure with no
media context (the already-downloaded items are discarded; partial
delivery is never attempted); if every download succeeds, the media
items are exactly the parsed image infos mapped in richText element
order. -/
theorem richText_handle_aggregate (dl : Downloader) (data : DingTalkMessageData)
    (infos : List ImageInfo)
    (hinfos : (parseRichTextContent
      ((data.content.bind (fun c => c.richText)).getD [])).2 = infos) :
    (∀ k e, k < infos.length →
      (∀ j, j < k → exceptIsOk (dl ((infos.getD j defaultImageInfo).downloadCode)) = true) →
      dl ((infos.getD k defaultImageInfo).downloadCode) = .error e →
      (richTextMessageHandler.handle dl data).2 =
        { success := false, media := none,
          errorMessage := some ("富文本消息处理失败：" ++ e), skipProcessing := false }) ∧
    ((∀ info ∈ infos, exceptIsOk (dl info.downloadCode) = true) →
      (richTextMessageHandler.handle dl data).2 =
        { success := true,
          media := if infos.isEmpty then none
                   else some { items := infos.map (mediaItemOf dl),
                               primary := (infos.map (mediaItemOf dl)).head? },
          errorMessage := none, skipProcessing := false }) := by
  constructor
  · intro k e hk hpre herr
    have hfail := downloadAllImages_error_at dl infos k e hk hpre herr
    simp only [richTextMessageHandler]
    rw [hinfos, hfail]
  · intro hall
    have hok := downloadAllImages_all_ok dl infos hall
    simp only [richTextMessageHandler]
    rw [hinfos, hok]
    cases infos <;> simp

theorem richText_handle_aggregate_witness :
    (richTextMessageHandler.handle dlFailC2 richMsg).2 =
      { success := false, media := none,
        errorMessage := some ("富文本消息处理失败：" ++ "boom"), skipProcessing := false } ∧
    (richTextMessageHandler.handle dlOk richMsg).2 =
      { success := true,
        media := some
          { items := [{ kind := .picture, path := "/tmp/f", contentType := "image/png",
                        fileSize := some 3 },
                      { kind := .picture, path := "/tmp/f", contentType := "image/png",
                        fileSize := some 3 }],
            primary := some { kind := .picture, path := "/tmp/f",
                              contentType := "image/png", fileSize := some 3 } },
        errorMessage := none, skipProcessing := false } := by
  constructor
  · exact (richText_handle_aggregate dlFailC2 richMsg
      [{ downloadCode := "c1" }, { downloadCode := "c2" }] (by decide)).1
      1 "boom" (by decide) (by decide) rfl
  · exact (richText_handle_aggregate dlOk richMsg
      [{ downloadCode := "c1" }, { downloadCode := "c2" }] (by decide)).2
      (by decide)

/-- C8: parsing the richText elements text "hi" followed by picture with
download code "c1" yields exactly the text part "hi" and exactly one
image info, whose download code is "c1". -/
theorem parseRichTextContent_example :
    parseRichTextContent
      [{ type := some "text", text := some "hi" },
       { type := some "picture", downloadCode := some "c1" }] =
      (["hi"], [{ downloadCode := "c1" }]) := by
  decide

/-- C9: a group-chat event (`conversationType = "2"`) is acknowledged
with SUCCESS and nothing else happens for it: the trace holds no
classification, validation, handling, media fetch, reply or
runtime-state write. -/
theorem handleMessage_group_ack_only (dl : Downloader) (data : DingTalkMessageData)
    (h : data.conversationType = "2") :
    handleMessage dl (.ok data) = [Step.ackSuccess] :=
  handleMessage_group_trace dl data h

theorem handleMessage_group_ack_only_witness :
    handleMessage (fun _ => .error "down")
      (.ok { conversationType := "2", msgtype := "text" }) = [Step.ackSuccess] :=
  handleMessage_group_ack_only _ _ rfl

/-- C10 counterexample: a picture message carrying a present-but-empty
`downloadCode` and a non-empty `pictureDownloadCode` — both fields
present, so not "both absent" — is still rejected with a non-empty
error message, because the empty `downloadCode` shadows the fallback
under `??`. -/
theorem picture_validate_rejects_with_fields_present :
    ({ msgtype := "picture",
       content := some { downloadCode := some "",
                         pictureDownloadCode := some "c1" } } :
        DingTalkMessageData).content.bind (fun c => c.downloadCode) = some "" ∧
    ({ msgtype := "picture",
       content := some { downloadCode := some "",
                         pictureDownloadCode := some "c1" } } :
        DingTalkMessageData).content.bind (fun c => c.pictureDownloadCode) = some "c1" ∧
    pictureMessageHandler.validate
      { msgtype := "picture",
        content := some { downloadCode := some "", pictureDownloadCode := some "c1" } } =
      { valid := false, errorMessage := some "图片处理失败：缺少下载码" } := by
  decide

/-- C10 amended: when `downloadCode` is absent and `pictureDownloadCode`
is a non-empty string, validation succeeds and `handle` fetches with
the `pictureDownloadCode`; validation rejects (with the fixed non-empty
message) exactly when `content?.downloadCode ?? content?.pictureDownloadCode`
is falsy — in particular a present-but-empty `downloadCode` also
rejects, even when a non-empty `pictureDownloadCode` is present. -/
theorem picture_downloadCode_fallback (data : DingTalkMessageData) :
    (∀ c, data.content.bind (fun x => x.downloadCode) = none →
      data.content.bind (fun x => x.pictureDownloadCode) = some c → c ≠ "" →
      pictureMessageHandler.validate data = { valid := true, errorMessage := none } ∧
      ∀ dl, (pictureMessageHandler.handle dl data).1 = [Step.mediaFetch c]) ∧
    ((pictureMessageHandler.validate data).valid = false ↔
      truthy (jsOr (data.content.bind (fun x => x.downloadCode))
                   (data.content.bind (fun x => x.pictureDownloadCode))) = false) ∧
    ((pictureMessageHandler.validate data).valid = false →
      (pictureMessageHandler.validate data).errorMessage =
        some "图片处理失败：缺少下载码") := by
  refine ⟨?_, ?_, ?_⟩
  · intro c h1 h2 hne
    constructor
    · simp [pictureMessageHandler, h1, h2, jsOr, truthy, hne]
    · intro dl
      simp only [pictureMessageHandler, singleMediaHandle, downloadAndSaveMedia,
        h1, h2, jsOr, Option.getD_some]
      split <;> rfl
  · cases h : truthy (jsOr (data.content.bind (fun x => x.downloadCode))
        (data.content.bind (fun x => x.pictureDownloadCode))) <;>
      simp [pictureMessageHandler, h]
  · intro hinvalid
    rcases h : truthy (jsOr (data.content.bind (fun x => x.downloadCode))
        (data.content.bind (fun x => x.pictureDownloadCode))) with _ | _
    · simp [pictureMessageHandler, h]
    · exfalso
      simp [pictureMessageHandler, h] at hinvalid

theorem picture_downloadCode_fallback_witness :
    pictureMessageHandler.validate
      { msgtype := "picture", content := some { pictureDownloadCode := some "c9" } } =
      { valid := true, errorMessage := none } ∧
    (pictureMessageHandler.handle dlOk
      { msgtype := "picture", content := some { pictureDownloadCode := some "c9" } }).1 =
      [Step.mediaFetch "c9"] := by
  have h := (picture_downloadCode_fallback
    { msgtype := "picture", content := some { pictureDownloadCode := some "c9" } }).1
    "c9" rfl rfl (by decide)
  exact ⟨h.1, h.2 dlOk⟩

end DingTalk
